import Mathlib

/-!
Verification of the prisma-engines migration / introspection core and of the
cached query connector.

The migration-engine core (SQL schema model, schema differ, destructive change
checker, SQL schema calculator and datamodel calculator) is embedded from the
specification, since only its test-suite ships with this tree; the cached query
connector is embedded directly from its source
(`query-engine/connectors/cached-connector/src`).
-/

namespace Prisma

/-! ## SQL schema model -/

/-- Modelled from the spec: §3.1 `ColumnTypeFamily` of the SQL schema model
(the `sql-schema-describer` crate is not part of this tree). -/
inductive ColumnTypeFamily where
  | int
  | float
  | boolean
  | string
  | dateTime
  | binary
  | json
  | uuid
  | enum (name : String)
  | geometric
  | logSequenceNumber
  | textSearch
  | transactionId
  | unknown
deriving DecidableEq, Repr

/-- Modelled from the spec: §3.1 `ColumnArity`. -/
inductive ColumnArity where
  | required
  | nullable
  | list
deriving DecidableEq, Repr

/-- Modelled from the spec: §3.1 `ColumnType` = (family, arity). Native type
descriptors are not needed by any claim. -/
structure ColumnType where
  family : ColumnTypeFamily
  arity : ColumnArity
deriving DecidableEq, Repr

/-- Modelled from the spec: §3.1 column defaults (none, literal value, sequence
reference, `NOW`, database-generated expression). -/
inductive DefaultValue where
  | value (v : String)
  | sequence (name : String)
  | now
  | dbGenerated (expr : String)
deriving DecidableEq, Repr

/-- Modelled from the spec: §3.1 `Column`. -/
structure Column where
  name : String
  tpe : ColumnType
  default : Option DefaultValue
  auto_increment : Bool
deriving DecidableEq, Repr

/-- Modelled from the spec: §3.1 `Sequence`. -/
structure Sequence where
  name : String
  initial_value : Nat
  allocation_size : Nat
deriving DecidableEq, Repr

/-- Modelled from the spec: §3.1 `PrimaryKey` (ordered columns, optional
backing sequence). -/
structure PrimaryKey where
  columns : List String
  sequence : Option Sequence
deriving DecidableEq, Repr

/-- Modelled from the spec: §3.1 index type. -/
inductive IndexType where
  | unique
  | normal
deriving DecidableEq, Repr

/-- Modelled from the spec: §3.1 `Index`. -/
structure Index where
  name : String
  columns : List String
  tpe : IndexType
deriving DecidableEq, Repr

/-- Modelled from the spec: §3.1 on-delete actions. -/
inductive ForeignKeyAction where
  | noAction
  | cascade
  | setNull
  | setDefault
  | restrict
deriving DecidableEq, Repr

/-- Modelled from the spec: §3.1 `ForeignKey`. -/
structure ForeignKey where
  constraint_name : Option String
  columns : List String
  referenced_table : String
  referenced_columns : List String
  on_delete_action : ForeignKeyAction
deriving DecidableEq, Repr

/-- Modelled from the spec: §3.1 `Enum` (name plus ordered value list). -/
structure SqlEnum where
  name : String
  values : List String
deriving DecidableEq, Repr

/-- Modelled from the spec: §3.1 `Table`. -/
structure Table where
  name : String
  columns : List Column
  indices : List Index
  primary_key : Option PrimaryKey
  foreign_keys : List ForeignKey
deriving DecidableEq, Repr

/-- Modelled from the spec: §3.1 `SqlSchema`. -/
structure SqlSchema where
  tables : List Table
  enums : List SqlEnum
  sequences : List Sequence
deriving DecidableEq, Repr

/-- Modelled from the spec: §6.3 the three supported dialects. -/
inductive SqlFamily where
  | postgres
  | mysql
  | sqlite
deriving DecidableEq, Repr

/-! ## Migration steps -/

/-- Modelled from the spec: §3.3 the migration step sum type produced by the
schema differ. -/
inductive SqlMigrationStep where
  | createTable (table : Table)
  | dropTable (name : String)
  | renameTable (prevName nextName : String)
  | addColumn (table : String) (column : Column)
  | dropColumn (table : String) (column : String)
  | alterColumn (table : String) (prev next : Column)
  | createIndex (table : String) (index : Index)
  | dropIndex (table : String) (name : String)
  | alterIndex (table : String) (prevName nextName : String)
  | addForeignKey (table : String) (fk : ForeignKey)
  | dropForeignKey (table : String) (constraint : String)
  | createEnum (e : SqlEnum)
  | dropEnum (name : String)
  | alterEnum (name : String) (createdValues droppedValues : List String)
  | createSequence (seq : Sequence)
  | dropSequence (name : String)
deriving DecidableEq, Repr

/-! ## Destructive change checker -/

/-- Modelled from the spec: §4.4 the live data statistics the checker queries
through the driver (`SELECT COUNT(*)` row counts and per-column non-null
counts). -/
structure DataStats where
  rowCount : String → Nat
  nonNullCount : String → String → Nat

/-- Modelled from the spec: §4.4 warning text for `DropTable` on a non-empty
table. -/
def dropTableWarning (table : String) (rows : Nat) : String :=
  "You are about to drop the table `" ++ table ++ "`, which is not empty (" ++
    toString rows ++ " rows)."

/-- Modelled from the spec: §4.4 warning text for `DropColumn` on a column with
non-null values. -/
def dropColumnWarning (table column : String) (values : Nat) : String :=
  "You are about to drop the column `" ++ column ++ "` on the `" ++ table ++
    "` table, which still contains " ++ toString values ++ " non-null values."

/-- Modelled from the spec: §4.4 warning text for a risky `AlterColumn` on a
non-empty table. -/
def alterColumnWarning (table column : String) (values : Nat) : String :=
  "You are about to alter the column `" ++ column ++ "` on the `" ++ table ++
    "` table, which still contains " ++ toString values ++
    " values. The data in that column may be lost."

/-- Modelled from the spec: §4.4 an `AlterColumn` is risky when it changes the
column type family, or changes the arity from Nullable to Required. -/
def alterColumnIsRisky (prev next : Column) : Bool :=
  decide (prev.tpe.family ≠ next.tpe.family) ||
    (decide (prev.tpe.arity = ColumnArity.nullable) &&
      decide (next.tpe.arity = ColumnArity.required))

/-- Modelled from the spec: §4.4 classification of a single step by the
destructive change checker (the `sql_destructive_changes_checker` module is not
part of this tree). On MySQL any `AlterColumn` on a non-empty table warns,
because the dialect implements it via `MODIFY`. -/
def checkStep (dialect : SqlFamily) (stats : DataStats) :
    SqlMigrationStep → List String
  | SqlMigrationStep.dropTable t =>
      if 1 ≤ stats.rowCount t then [dropTableWarning t (stats.rowCount t)] else []
  | SqlMigrationStep.dropColumn t c =>
      if 1 ≤ stats.nonNullCount t c then [dropColumnWarning t c (stats.nonNullCount t c)]
      else []
  | SqlMigrationStep.alterColumn t prev next =>
      if 1 ≤ stats.rowCount t then
        if alterColumnIsRisky prev next || decide (dialect = SqlFamily.mysql) then
          [alterColumnWarning t prev.name (stats.rowCount t)]
        else []
      else []
  | _ => []

/-- Modelled from the spec: §4.4 the warnings of a migration are the warnings
of its steps, in step order. -/
def migrationWarnings (dialect : SqlFamily) (stats : DataStats)
    (steps : List SqlMigrationStep) : List String :=
  (steps.map (checkStep dialect stats)).flatten

/-! ## Applying steps to a schema -/

/-- Modelled from the spec: §4.3/§4.5 replacing a column (matched by name) with
its altered shape. -/
def alterColumnIn (cs : List Column) (next : Column) : List Column :=
  cs.map fun c => if c.name == next.name then next else c

/-- Modelled from the spec: the structural effect of one rendered DDL step on
the database schema. -/
def applyStep (s : SqlSchema) : SqlMigrationStep → SqlSchema
  | SqlMigrationStep.createTable t => { s with tables := s.tables ++ [t] }
  | SqlMigrationStep.dropTable n =>
      { s with tables := s.tables.filter fun t => !(t.name == n) }
  | SqlMigrationStep.renameTable a b =>
      { s with tables := s.tables.map fun t => if t.name == a then { t with name := b } else t }
  | SqlMigrationStep.addColumn tn col =>
      { s with tables := s.tables.map fun t =>
          if t.name == tn then { t with columns := t.columns ++ [col] } else t }
  | SqlMigrationStep.dropColumn tn c =>
      { s with tables := s.tables.map fun t =>
          if t.name == tn then { t with columns := t.columns.filter fun col => !(col.name == c) } else t }
  | SqlMigrationStep.alterColumn tn _prev next =>
      { s with tables := s.tables.map fun t =>
          if t.name == tn then { t with columns := alterColumnIn t.columns next } else t }
  | SqlMigrationStep.createIndex tn idx =>
      { s with tables := s.tables.map fun t =>
          if t.name == tn then { t with indices := t.indices ++ [idx] } else t }
  | SqlMigrationStep.dropIndex tn n =>
      { s with tables := s.tables.map fun t =>
          if t.name == tn then { t with indices := t.indices.filter fun i => !(i.name == n) } else t }
  | SqlMigrationStep.alterIndex tn a b =>
      { s with tables := s.tables.map fun t =>
          if t.name == tn then
            { t with indices := t.indices.map fun i => if i.name == a then { i with name := b } else i }
          else t }
  | SqlMigrationStep.addForeignKey tn fk =>
      { s with tables := s.tables.map fun t =>
          if t.name == tn then { t with foreign_keys := t.foreign_keys ++ [fk] } else t }
  | SqlMigrationStep.dropForeignKey tn n =>
      { s with tables := s.tables.map fun t =>
          if t.name == tn then
            { t with foreign_keys := t.foreign_keys.filter fun fk => !(fk.constraint_name == some n) }
          else t }
  | SqlMigrationStep.createEnum e => { s with enums := s.enums ++ [e] }
  | SqlMigrationStep.dropEnum n => { s with enums := s.enums.filter fun e => !(e.name == n) }
  | SqlMigrationStep.alterEnum n created dropped =>
      { s with enums := s.enums.map fun e =>
          if e.name == n then
            { e with values := created ++ e.values.filter fun v => !(dropped.contains v) }
          else e }
  | SqlMigrationStep.createSequence sq => { s with sequences := s.sequences ++ [sq] }
  | SqlMigrationStep.dropSequence n =>
      { s with sequences := s.sequences.filter fun sq => !(sq.name == n) }

/-- Result of the apply pipeline: the resulting schema and the warnings. -/
structure ApplyResult where
  schema : SqlSchema
  warnings : List String
deriving Repr

/-- Modelled from the spec: §4.6 the apply pipeline. When the steps carry
warnings and `force` is false the pipeline is Blocked: no DDL is issued and the
warnings are returned; otherwise every step is executed in order. -/
def applyMigration (dialect : SqlFamily) (stats : DataStats) (s : SqlSchema)
    (steps : List SqlMigrationStep) (force : Bool) : ApplyResult :=
  let ws := migrationWarnings dialect stats steps
  if ws.isEmpty || force then { schema := steps.foldl applyStep s, warnings := ws }
  else { schema := s, warnings := ws }

/-! ## Schema lookups -/

/-- Find a table by name. -/
def SqlSchema.findTable (s : SqlSchema) (t : String) : Option Table :=
  s.tables.find? fun tb => tb.name == t

/-- Find a column of a table by name. -/
def Table.findColumn (t : Table) (c : String) : Option Column :=
  t.columns.find? fun col => col.name == c

/-- Find a column of a schema by table and column name. -/
def SqlSchema.findColumn (s : SqlSchema) (t c : String) : Option Column :=
  (s.findTable t).bind fun tb => tb.findColumn c

/-! ## Lemmas about applying an AlterColumn step -/

lemma findTable_map_alter (tables : List Table) (tn : String) (next : Column) :
    ((tables.map fun t =>
        if t.name == tn then { t with columns := alterColumnIn t.columns next } else t).find?
          fun t => t.name == tn) =
      (tables.find? fun t => t.name == tn).map
        fun t => { t with columns := alterColumnIn t.columns next } := by
  induction tables with
  | nil => rfl
  | cons t ts ih =>
    by_cases h : t.name == tn
    · simp [List.find?, h]
    · have h' : (t.name == tn) = false := by simpa using h
      simpa [List.find?, h'] using ih

lemma findColumn_alterColumnIn (cs : List Column) (next : Column)
    (h : (cs.find? fun c => c.name == next.name).isSome) :
    ((alterColumnIn cs next).find? fun c => c.name == next.name) = some next := by
  induction cs with
  | nil => simp [List.find?] at h
  | cons c cs ih =>
    by_cases hc : c.name == next.name
    · simp [alterColumnIn, List.find?, hc]
    · have hc' : (c.name == next.name) = false := by simpa using hc
      have h' : (cs.find? fun c => c.name == next.name).isSome := by
        simpa [List.find?, hc'] using h
      simpa [alterColumnIn, List.find?, hc'] using ih h'

/-! ## Destructive change checker: claims C1, C5, C6 -/

/-- C1: a `DropTable` step on a table containing at least one row makes the
destructive change checker produce exactly one warning with the exact text
"You are about to drop the table \x7bT\x7d, which is not empty (\x7bn\x7d rows).",
and with `force = false` the apply pipeline leaves the schema unchanged. -/
theorem dropTable_nonEmpty_warns_and_blocks (dialect : SqlFamily) (stats : DataStats)
    (s : SqlSchema) (t : String) (h : 1 ≤ stats.rowCount t) :
    checkStep dialect stats (SqlMigrationStep.dropTable t) =
      ["You are about to drop the table `" ++ t ++ "`, which is not empty (" ++
        toString (stats.rowCount t) ++ " rows)."] ∧
    (applyMigration dialect stats s [SqlMigrationStep.dropTable t] false).schema = s := by
  have hcheck : checkStep dialect stats (SqlMigrationStep.dropTable t) =
      [dropTableWarning t (stats.rowCount t)] := by
    simp [checkStep, h]
  refine ⟨by simpa [dropTableWarning] using hcheck, ?_⟩
  simp [applyMigration, migrationWarnings, hcheck]

/-- Witness for C1 at a concrete input: one row in table `Test`. -/
theorem dropTable_nonEmpty_warns_and_blocks_witness :
    1 ≤ (1 : Nat) ∧
    (checkStep SqlFamily.postgres ⟨fun _ => 1, fun _ _ => 1⟩ (SqlMigrationStep.dropTable "Test") =
      ["You are about to drop the table `Test`, which is not empty (1 rows)."] ∧
    (applyMigration SqlFamily.postgres ⟨fun _ => 1, fun _ _ => 1⟩
        ⟨[], [], []⟩ [SqlMigrationStep.dropTable "Test"] false).schema = ⟨[], [], []⟩) :=
  ⟨by decide,
    dropTable_nonEmpty_warns_and_blocks SqlFamily.postgres ⟨fun _ => 1, fun _ _ => 1⟩
      ⟨[], [], []⟩ "Test" (by decide)⟩

/-- C5: an `AlterColumn` step that changes the column type family, or the
arity from Nullable to Required, on a table with n ≥ 1 rows produces exactly
the warning "You are about to alter the column \x7bc\x7d on the \x7bT\x7d table,
which still contains \x7bn\x7d values. The data in that column may be lost.",
and with `force = false` the schema is left unchanged. -/
theorem alterColumn_nonEmpty_warns_and_blocks (dialect : SqlFamily) (stats : DataStats)
    (s : SqlSchema) (tn : String) (prev next : Column)
    (hrows : 1 ≤ stats.rowCount tn)
    (hrisk : prev.tpe.family ≠ next.tpe.family ∨
      (prev.tpe.arity = ColumnArity.nullable ∧ next.tpe.arity = ColumnArity.required)) :
    checkStep dialect stats (SqlMigrationStep.alterColumn tn prev next) =
      ["You are about to alter the column `" ++ prev.name ++ "` on the `" ++ tn ++
        "` table, which still contains " ++ toString (stats.rowCount tn) ++
        " values. The data in that column may be lost."] ∧
    (applyMigration dialect stats s [SqlMigrationStep.alterColumn tn prev next] false).schema = s := by
  have hb : alterColumnIsRisky prev next = true := by
    unfold alterColumnIsRisky
    rcases hrisk with h | ⟨h1, h2⟩
    · simp [h]
    · simp [h1, h2]
  have hcheck : checkStep dialect stats (SqlMigrationStep.alterColumn tn prev next) =
      [alterColumnWarning tn prev.name (stats.rowCount tn)] := by
    simp [checkStep, hrows, hb]
  refine ⟨by simpa [alterColumnWarning] using hcheck, ?_⟩
  simp [applyMigration, migrationWarnings, hcheck]

/-- Witness for C5 at a concrete input: `age` changing from Int to Float with
two rows in table `Test`. -/
theorem alterColumn_nonEmpty_warns_and_blocks_witness :
    (1 ≤ (2 : Nat) ∧
      (ColumnTypeFamily.int ≠ ColumnTypeFamily.float ∨
        (ColumnArity.nullable = ColumnArity.nullable ∧
          ColumnArity.nullable = ColumnArity.required))) ∧
    (checkStep SqlFamily.postgres ⟨fun _ => 2, fun _ _ => 2⟩
        (SqlMigrationStep.alterColumn "Test"
          ⟨"age", ⟨ColumnTypeFamily.int, ColumnArity.nullable⟩, none, false⟩
          ⟨"age", ⟨ColumnTypeFamily.float, ColumnArity.nullable⟩, none, false⟩) =
      ["You are about to alter the column `age` on the `Test` table, which still contains 2 values. The data in that column may be lost."] ∧
    (applyMigration SqlFamily.postgres ⟨fun _ => 2, fun _ _ => 2⟩ ⟨[], [], []⟩
        [SqlMigrationStep.alterColumn "Test"
          ⟨"age", ⟨ColumnTypeFamily.int, ColumnArity.nullable⟩, none, false⟩
          ⟨"age", ⟨ColumnTypeFamily.float, ColumnArity.nullable⟩, none, false⟩] false).schema =
      ⟨[], [], []⟩) :=
  ⟨⟨by decide, Or.inl (by decide)⟩,
    alterColumn_nonEmpty_warns_and_blocks SqlFamily.postgres ⟨fun _ => 2, fun _ _ => 2⟩
      ⟨[], [], []⟩ "Test"
      ⟨"age", ⟨ColumnTypeFamily.int, ColumnArity.nullable⟩, none, false⟩
      ⟨"age", ⟨ColumnTypeFamily.float, ColumnArity.nullable⟩, none, false⟩
      (by decide) (Or.inl (by decide))⟩

/-- C6: on a table containing zero rows no `AlterColumn` step produces a
warning on any dialect, and the alteration is applied: afterwards the column
has the new type (family and arity). -/
theorem empty_table_alterations_are_safe_and_applied (dialect : SqlFamily)
    (stats : DataStats) (s : SqlSchema) (tn : String) (prev next : Column)
    (hrows : stats.rowCount tn = 0)
    (hcol : (SqlSchema.findColumn s tn next.name).isSome) :
    checkStep dialect stats (SqlMigrationStep.alterColumn tn prev next) = [] ∧
    SqlSchema.findColumn
        (applyMigration dialect stats s [SqlMigrationStep.alterColumn tn prev next] false).schema
        tn next.name = some next := by
  have hcheck : checkStep dialect stats (SqlMigrationStep.alterColumn tn prev next) = [] := by
    simp [checkStep, hrows]
  refine ⟨hcheck, ?_⟩
  have happly :
      (applyMigration dialect stats s [SqlMigrationStep.alterColumn tn prev next] false).schema =
        applyStep s (SqlMigrationStep.alterColumn tn prev next) := by
    simp [applyMigration, migrationWarnings, hcheck]
  rw [happly]
  unfold SqlSchema.findColumn SqlSchema.findTable at hcol ⊢
  simp only [applyStep]
  rw [findTable_map_alter]
  cases hfind : s.tables.find? (fun t => t.name == tn) with
  | none => rw [hfind] at hcol; simp at hcol
  | some tb =>
    rw [hfind] at hcol
    simp only [Option.map_some', Option.some_bind] at hcol ⊢
    exact findColumn_alterColumnIn tb.columns next (by simpa [Table.findColumn] using hcol)

/-- Witness for C6 at a concrete input: `dogs` changing from Int to String in
an empty table `User`. -/
theorem empty_table_alterations_witness :
    ((0 : Nat) = 0 ∧
      (SqlSchema.findColumn
        ⟨[⟨"User", [⟨"dogs", ⟨ColumnTypeFamily.int, ColumnArity.required⟩, none, false⟩],
          [], none, []⟩], [], []⟩ "User" "dogs").isSome) ∧
    (checkStep SqlFamily.mysql ⟨fun _ => 0, fun _ _ => 0⟩
        (SqlMigrationStep.alterColumn "User"
          ⟨"dogs", ⟨ColumnTypeFamily.int, ColumnArity.required⟩, none, false⟩
          ⟨"dogs", ⟨ColumnTypeFamily.string, ColumnArity.required⟩, none, false⟩) = [] ∧
    SqlSchema.findColumn
        (applyMigration SqlFamily.mysql ⟨fun _ => 0, fun _ _ => 0⟩
          ⟨[⟨"User", [⟨"dogs", ⟨ColumnTypeFamily.int, ColumnArity.required⟩, none, false⟩],
            [], none, []⟩], [], []⟩
          [SqlMigrationStep.alterColumn "User"
            ⟨"dogs", ⟨ColumnTypeFamily.int, ColumnArity.required⟩, none, false⟩
            ⟨"dogs", ⟨ColumnTypeFamily.string, ColumnArity.required⟩, none, false⟩] false).schema
        "User" "dogs" =
      some ⟨"dogs", ⟨ColumnTypeFamily.string, ColumnArity.required⟩, none, false⟩) :=
  ⟨⟨rfl, by decide⟩,
    empty_table_alterations_are_safe_and_applied SqlFamily.mysql ⟨fun _ => 0, fun _ _ => 0⟩
      ⟨[⟨"User", [⟨"dogs", ⟨ColumnTypeFamily.int, ColumnArity.required⟩, none, false⟩],
        [], none, []⟩], [], []⟩ "User"
      ⟨"dogs", ⟨ColumnTypeFamily.int, ColumnArity.required⟩, none, false⟩
      ⟨"dogs", ⟨ColumnTypeFamily.string, ColumnArity.required⟩, none, false⟩
      rfl (by decide)⟩

/-! ## Schema differ: index diff (claim C2) -/

/-- Modelled from the spec: §4.3 two indexes are a pure rename of each other
when they have the same columns and the same type (uniqueness). -/
def indexMatches (a b : Index) : Bool :=
  decide (a.columns = b.columns) && decide (a.tpe = b.tpe)

/-- Modelled from the spec: §4.3 all dialects except SQLite support renaming an
index in place. -/
def supportsIndexRename : SqlFamily → Bool
  | SqlFamily.sqlite => false
  | _ => true

/-- Modelled from the spec: §4.3 the indexes of the previous table that have
no name match in the next table. -/
def diffIndexesPrevOnly (prev next : List Index) : List Index :=
  prev.filter fun p => (next.find? fun n => n.name == p.name).isNone

/-- Modelled from the spec: §4.3 the indexes of the next table that have no
name match in the previous table. -/
def diffIndexesNextOnly (prev next : List Index) : List Index :=
  next.filter fun n => (prev.find? fun p => p.name == n.name).isNone

/-- Modelled from the spec: §4.3 the step contribution of one previous index
that is matched by name: nothing when columns and type agree, drop + create
otherwise. -/
def changedStep (tn : String) (next : List Index) (p : Index)
    (acc : List SqlMigrationStep) : List SqlMigrationStep :=
  match next.find? (fun n => n.name == p.name) with
  | some n =>
      if indexMatches p n then acc
      else SqlMigrationStep.dropIndex tn p.name :: SqlMigrationStep.createIndex tn n :: acc
  | none => acc

/-- Modelled from the spec: §4.3 steps for indexes present on both sides by
name. -/
def diffIndexesChanged (tn : String) (prev next : List Index) : List SqlMigrationStep :=
  prev.foldr (changedStep tn next) []

/-- Modelled from the spec: §4.3 the step contribution of one unmatched
previous index: a rename (`AlterIndex` where supported, drop + create on
SQLite) when an unmatched next index has the same columns and type, a plain
drop otherwise. -/
def renameStep (dialect : SqlFamily) (tn : String) (nextOnly : List Index)
    (p : Index) (acc : List SqlMigrationStep) : List SqlMigrationStep :=
  match nextOnly.find? (fun n => indexMatches p n) with
  | some n =>
      if supportsIndexRename dialect then SqlMigrationStep.alterIndex tn p.name n.name :: acc
      else SqlMigrationStep.dropIndex tn p.name :: SqlMigrationStep.createIndex tn n :: acc
  | none => SqlMigrationStep.dropIndex tn p.name :: acc

/-- Modelled from the spec: §4.3 steps for the unmatched previous indexes. -/
def diffIndexesRenames (dialect : SqlFamily) (tn : String)
    (prevOnly nextOnly : List Index) : List SqlMigrationStep :=
  prevOnly.foldr (renameStep dialect tn nextOnly) []

/-- Modelled from the spec: §4.3 the step contribution of one unmatched next
index: nothing when it was paired as a rename, a creation otherwise. -/
def createStep (tn : String) (prevOnly : List Index) (n : Index)
    (acc : List SqlMigrationStep) : List SqlMigrationStep :=
  if (prevOnly.find? fun p => indexMatches p n).isSome then acc
  else SqlMigrationStep.createIndex tn n :: acc

/-- Modelled from the spec: §4.3 steps for the unmatched next indexes. -/
def diffIndexesCreates (tn : String) (prevOnly nextOnly : List Index) :
    List SqlMigrationStep :=
  nextOnly.foldr (createStep tn prevOnly) []

/-- Modelled from the spec: §4.3 the index diff of one retained table
(the `sql_schema_differ` module is not part of this tree). Indexes are matched
by name; an index present on both sides with different columns or type is
dropped and recreated; a pure rename (same columns, same type, different name)
becomes `AlterIndex` on dialects that support renaming and drop + create on
SQLite; everything else is dropped or created. -/
def diffIndexes (dialect : SqlFamily) (tn : String) (prev next : List Index) :
    List SqlMigrationStep :=
  diffIndexesChanged tn prev next ++
    diffIndexesRenames dialect tn (diffIndexesPrevOnly prev next) (diffIndexesNextOnly prev next) ++
    diffIndexesCreates tn (diffIndexesPrevOnly prev next) (diffIndexesNextOnly prev next)

lemma changedStep_of_none (tn : String) (next : List Index) (p : Index)
    (acc : List SqlMigrationStep) (h : next.find? (fun n => n.name == p.name) = none) :
    changedStep tn next p acc = acc := by
  simp [changedStep, h]

lemma changedStep_of_self (tn : String) (next : List Index) (p : Index)
    (acc : List SqlMigrationStep) (h : next.find? (fun n => n.name == p.name) = some p) :
    changedStep tn next p acc = acc := by
  simp [changedStep, h, indexMatches]

lemma find?_name_of_pairwise (l : List Index) (a : Index) (h : a ∈ l)
    (hd : l.Pairwise fun x y => x.name ≠ y.name) :
    (l.find? fun n => n.name == a.name) = some a := by
  induction l with
  | nil => cases h
  | cons x l ih =>
    rcases List.mem_cons.mp h with rfl | hmem
    · simp [List.find?]
    · have hx : x.name ≠ a.name := (List.pairwise_cons.mp hd).1 a hmem
      have hx' : (x.name == a.name) = false := by simpa using hx
      simp only [List.find?, hx']
      exact ih hmem (List.pairwise_cons.mp hd).2

lemma diffIndexesChanged_eq_nil (tn : String) (c next : List Index)
    (h : ∀ p ∈ c, next.find? (fun n => n.name == p.name) = some p) :
    diffIndexesChanged tn c next = [] := by
  induction c with
  | nil => rfl
  | cons p c ih =>
    unfold diffIndexesChanged
    rw [List.foldr_cons, changedStep_of_self tn next p _ (h p (List.mem_cons_self p c))]
    exact ih fun q hq => h q (List.mem_cons_of_mem p hq)

/-- C2: when the previous and next indexes of a table agree except for one
index that keeps its columns and its uniqueness but changes its name, the
differ emits exactly one `AlterIndex` step carrying the old and the new name
on every dialect except SQLite, and exactly a `DropIndex` of the old index
plus a `CreateIndex` of the new one on SQLite — no other step for that
table's indexes. -/
theorem index_rename_is_alterIndex_except_sqlite (dialect : SqlFamily) (tn : String)
    (common : List Index) (old new : Index)
    (hc : old.columns = new.columns) (ht : old.tpe = new.tpe)
    (hn : old.name ≠ new.name)
    (hdistinct : common.Pairwise fun x y => x.name ≠ y.name)
    (hold : ∀ i ∈ common, i.name ≠ old.name)
    (hnew : ∀ i ∈ common, i.name ≠ new.name) :
    (dialect ≠ SqlFamily.sqlite →
      diffIndexes dialect tn (common ++ [old]) (common ++ [new]) =
        [SqlMigrationStep.alterIndex tn old.name new.name]) ∧
    diffIndexes SqlFamily.sqlite tn (common ++ [old]) (common ++ [new]) =
      [SqlMigrationStep.dropIndex tn old.name, SqlMigrationStep.createIndex tn new] := by
  have hm : indexMatches old new = true := by
    simp [indexMatches, hc, ht]
  have hfo : ((common ++ [new]).find? fun n => n.name == old.name) = none := by
    rw [List.find?_eq_none]
    intro x hx
    rcases List.mem_append.mp hx with hx | hx
    · simpa using hold x hx
    · rw [List.mem_singleton] at hx
      subst hx
      simpa using Ne.symm hn
  have hfn : ((common ++ [old]).find? fun p => p.name == new.name) = none := by
    rw [List.find?_eq_none]
    intro x hx
    rcases List.mem_append.mp hx with hx | hx
    · simpa using hnew x hx
    · rw [List.mem_singleton] at hx
      subst hx
      simpa using hn
  have hd2 : (common ++ [new]).Pairwise fun x y => x.name ≠ y.name := by
    rw [List.pairwise_append]
    refine ⟨hdistinct, List.pairwise_singleton _ _, ?_⟩
    intro a ha b hb
    rw [List.mem_singleton] at hb
    subst hb
    exact hnew a ha
  have hPrev : diffIndexesPrevOnly (common ++ [old]) (common ++ [new]) = [old] := by
    unfold diffIndexesPrevOnly
    rw [List.filter_append]
    have h1 : common.filter
        (fun p => ((common ++ [new]).find? fun n => n.name == p.name).isNone) = [] := by
      rw [List.filter_eq_nil_iff]
      intro a ha
      have hs : ((common ++ [new]).find? fun n => n.name == a.name).isSome := by
        rw [List.find?_isSome]
        exact ⟨a, List.mem_append_left _ ha, by simp⟩
      intro hnone
      rw [Option.isNone_iff_eq_none] at hnone
      rw [hnone] at hs
      simp at hs
    have h2 : ([old] : List Index).filter
        (fun p => ((common ++ [new]).find? fun n => n.name == p.name).isNone) = [old] := by
      simp [List.filter, hfo]
    rw [h1, h2, List.nil_append]
  have hNext : diffIndexesNextOnly (common ++ [old]) (common ++ [new]) = [new] := by
    unfold diffIndexesNextOnly
    rw [List.filter_append]
    have h1 : common.filter
        (fun n => ((common ++ [old]).find? fun p => p.name == n.name).isNone) = [] := by
      rw [List.filter_eq_nil_iff]
      intro a ha
      have hs : ((common ++ [old]).find? fun p => p.name == a.name).isSome := by
        rw [List.find?_isSome]
        exact ⟨a, List.mem_append_left _ ha, by simp⟩
      intro hnone
      rw [Option.isNone_iff_eq_none] at hnone
      rw [hnone] at hs
      simp at hs
    have h2 : ([new] : List Index).filter
        (fun n => ((common ++ [old]).find? fun p => p.name == n.name).isNone) = [new] := by
      simp [List.filter, hfn]
    rw [h1, h2, List.nil_append]
  have hChanged : diffIndexesChanged tn (common ++ [old]) (common ++ [new]) = [] := by
    unfold diffIndexesChanged
    rw [List.foldr_append]
    have h1 : ([old] : List Index).foldr (changedStep tn (common ++ [new])) [] = [] := by
      rw [List.foldr_cons, List.foldr_nil]
      exact changedStep_of_none tn _ old [] hfo
    rw [h1]
    exact diffIndexesChanged_eq_nil tn common (common ++ [new])
      fun p hp => find?_name_of_pairwise _ p (List.mem_append_left _ hp) hd2
  have hfind_match : ([new] : List Index).find? (fun n => indexMatches old n) = some new := by
    simp [List.find?, hm]
  have hCre : diffIndexesCreates tn [old] [new] = [] := by
    unfold diffIndexesCreates
    rw [List.foldr_cons, List.foldr_nil]
    simp [createStep, List.find?, hm]
  constructor
  · intro hd
    have hs : supportsIndexRename dialect = true := by
      cases dialect with
      | sqlite => exact absurd rfl hd
      | postgres => rfl
      | mysql => rfl
    unfold diffIndexes
    rw [hChanged, hPrev, hNext, hCre]
    unfold diffIndexesRenames
    rw [List.foldr_cons, List.foldr_nil]
    simp [renameStep, hfind_match, hs]
  · unfold diffIndexes
    rw [hChanged, hPrev, hNext, hCre]
    unfold diffIndexesRenames
    rw [List.foldr_cons, List.foldr_nil]
    simp [renameStep, hfind_match, supportsIndexRename]

/-- Witness for C2 at a concrete input: `customName` renamed to `customNameA`
on columns (field, secondField), next to an untouched index `A_other`. -/
theorem index_rename_witness :
    (SqlFamily.postgres ≠ SqlFamily.sqlite →
      diffIndexes SqlFamily.postgres "A"
          ([⟨"A_other", ["other"], IndexType.normal⟩] ++
            [⟨"customName", ["field", "secondField"], IndexType.unique⟩])
          ([⟨"A_other", ["other"], IndexType.normal⟩] ++
            [⟨"customNameA", ["field", "secondField"], IndexType.unique⟩]) =
        [SqlMigrationStep.alterIndex "A" "customName" "customNameA"]) ∧
    diffIndexes SqlFamily.sqlite "A"
        ([⟨"A_other", ["other"], IndexType.normal⟩] ++
          [⟨"customName", ["field", "secondField"], IndexType.unique⟩])
        ([⟨"A_other", ["other"], IndexType.normal⟩] ++
          [⟨"customNameA", ["field", "secondField"], IndexType.unique⟩]) =
      [SqlMigrationStep.dropIndex "A" "customName",
        SqlMigrationStep.createIndex "A" ⟨"customNameA", ["field", "secondField"], IndexType.unique⟩] :=
  index_rename_is_alterIndex_except_sqlite SqlFamily.postgres "A"
    [⟨"A_other", ["other"], IndexType.normal⟩]
    ⟨"customName", ["field", "secondField"], IndexType.unique⟩
    ⟨"customNameA", ["field", "secondField"], IndexType.unique⟩
    rfl rfl (by decide) (List.pairwise_singleton _ _) (by decide) (by decide)

/-! ## SQL schema calculator: relations (claims C3 and C7) -/

/-- One side of an implicit many-to-many relation: the model name and the name
and type of its id column. -/
structure ManyToManySide where
  model : String
  idColumn : String
  idType : ColumnType
deriving DecidableEq, Repr

/-- Lexicographic order on lists of character codes. -/
def natListLt : List Nat → List Nat → Bool
  | [], [] => false
  | [], _ :: _ => true
  | _ :: _, [] => false
  | a :: as, b :: bs => if a < b then true else if b < a then false else natListLt as bs

/-- Lexicographic order on strings, by character code. -/
def stringLt (a b : String) : Bool :=
  natListLt (a.data.map Char.toNat) (b.data.map Char.toNat)

/-- Modelled from the spec: §4.1/§9 the relation name of a many-to-many
relation: the declared name when present, otherwise the two model names sorted
lexicographically and joined with "To". -/
def m2mRelationName (rel : Option String) (a b : String) : String :=
  match rel with
  | some r => r
  | none => if stringLt a b then a ++ "To" ++ b else b ++ "To" ++ a

/-- Modelled from the spec: §4.1 the implicit join table of a many-to-many
relation with no scalar fields (the `sql_schema_calculator` module is not part
of this tree): name `_` plus the relation name, columns `A` and `B` typed
after each side's id, two cascading foreign keys to the two ids, a unique
index on (A, B) named after the relation, and a non-unique index on (B). -/
def m2mJoinTable (rel : Option String) (a b : ManyToManySide) : Table :=
  let relName := m2mRelationName rel a.model b.model
  { name := "_" ++ relName
    columns :=
      [{ name := "A", tpe := a.idType, default := none, auto_increment := false },
       { name := "B", tpe := b.idType, default := none, auto_increment := false }]
    indices :=
      [{ name := "_" ++ relName ++ "_AB_unique", columns := ["A", "B"], tpe := IndexType.unique },
       { name := "_" ++ relName ++ "_B_index", columns := ["B"], tpe := IndexType.normal }]
    primary_key := none
    foreign_keys :=
      [{ constraint_name := none, columns := ["A"], referenced_table := a.model,
         referenced_columns := [a.idColumn], on_delete_action := ForeignKeyAction.cascade },
       { constraint_name := none, columns := ["B"], referenced_table := b.model,
         referenced_columns := [b.idColumn], on_delete_action := ForeignKeyAction.cascade }] }

/-- C3: for a many-to-many relation with no scalar fields the calculator
produces a join table named `_` plus the relation name (the two model names in
alphabetical order joined with "To" when the relation is unnamed), with
exactly the two columns `A` and `B` typed after each side's id, two foreign
keys to the two models' id columns both cascading on delete, and a unique
index on (A, B) named after the relation with suffix `_AB_unique`. -/
theorem m2m_join_table_shape (rel : Option String) (a b : ManyToManySide)
    (halpha : stringLt a.model b.model = true) :
    (∀ r, (m2mJoinTable (some r) a b).name = "_" ++ r) ∧
    (m2mJoinTable none a b).name = "_" ++ (a.model ++ "To" ++ b.model) ∧
    (m2mJoinTable rel a b).columns =
      [{ name := "A", tpe := a.idType, default := none, auto_increment := false },
       { name := "B", tpe := b.idType, default := none, auto_increment := false }] ∧
    (m2mJoinTable rel a b).foreign_keys =
      [{ constraint_name := none, columns := ["A"], referenced_table := a.model,
         referenced_columns := [a.idColumn], on_delete_action := ForeignKeyAction.cascade },
       { constraint_name := none, columns := ["B"], referenced_table := b.model,
         referenced_columns := [b.idColumn], on_delete_action := ForeignKeyAction.cascade }] ∧
    ({ name := "_" ++ m2mRelationName rel a.model b.model ++ "_AB_unique",
       columns := ["A", "B"], tpe := IndexType.unique } : Index) ∈
      (m2mJoinTable rel a b).indices := by
  refine ⟨fun r => rfl, ?_, rfl, rfl, ?_⟩
  · simp [m2mJoinTable, m2mRelationName, halpha]
  · simp [m2mJoinTable]

/-- Witness for C3 at a concrete input: the unnamed relation between `Profile`
and `Skill` with string ids. -/
theorem m2m_join_table_witness :
    (∀ r, (m2mJoinTable (some r)
        ⟨"Profile", "id", ⟨ColumnTypeFamily.string, ColumnArity.required⟩⟩
        ⟨"Skill", "id", ⟨ColumnTypeFamily.string, ColumnArity.required⟩⟩).name = "_" ++ r) ∧
    (m2mJoinTable none
        ⟨"Profile", "id", ⟨ColumnTypeFamily.string, ColumnArity.required⟩⟩
        ⟨"Skill", "id", ⟨ColumnTypeFamily.string, ColumnArity.required⟩⟩).name =
      "_" ++ ("Profile" ++ "To" ++ "Skill") ∧
    (m2mJoinTable none
        ⟨"Profile", "id", ⟨ColumnTypeFamily.string, ColumnArity.required⟩⟩
        ⟨"Skill", "id", ⟨ColumnTypeFamily.string, ColumnArity.required⟩⟩).columns =
      [{ name := "A", tpe := ⟨ColumnTypeFamily.string, ColumnArity.required⟩,
         default := none, auto_increment := false },
       { name := "B", tpe := ⟨ColumnTypeFamily.string, ColumnArity.required⟩,
         default := none, auto_increment := false }] ∧
    (m2mJoinTable none
        ⟨"Profile", "id", ⟨ColumnTypeFamily.string, ColumnArity.required⟩⟩
        ⟨"Skill", "id", ⟨ColumnTypeFamily.string, ColumnArity.required⟩⟩).foreign_keys =
      [{ constraint_name := none, columns := ["A"], referenced_table := "Profile",
         referenced_columns := ["id"], on_delete_action := ForeignKeyAction.cascade },
       { constraint_name := none, columns := ["B"], referenced_table := "Skill",
         referenced_columns := ["id"], on_delete_action := ForeignKeyAction.cascade }] ∧
    ({ name := "_" ++ m2mRelationName none "Profile" "Skill" ++ "_AB_unique",
       columns := ["A", "B"], tpe := IndexType.unique } : Index) ∈
      (m2mJoinTable none
        ⟨"Profile", "id", ⟨ColumnTypeFamily.string, ColumnArity.required⟩⟩
        ⟨"Skill", "id", ⟨ColumnTypeFamily.string, ColumnArity.required⟩⟩).indices :=
  m2m_join_table_shape none
    ⟨"Profile", "id", ⟨ColumnTypeFamily.string, ColumnArity.required⟩⟩
    ⟨"Skill", "id", ⟨ColumnTypeFamily.string, ColumnArity.required⟩⟩
    (by decide)

/-- One scalar field referenced by an inline relation: its column name and
whether the field is optional. -/
structure ReferencingField where
  column : String
  is_optional : Bool
deriving DecidableEq, Repr

/-- Modelled from the spec: §4.1 the foreign key produced for an inline
relation field with `fields` and `references` arguments. The on-delete action
is `SetNull` when all referencing fields are optional and `Cascade` otherwise. -/
def inlineRelationForeignKey (fields : List ReferencingField) (target : String)
    (refs : List String) : ForeignKey :=
  { constraint_name := none
    columns := fields.map ReferencingField.column
    referenced_table := target
    referenced_columns := refs
    on_delete_action :=
      if fields.all ReferencingField.is_optional then ForeignKeyAction.setNull
      else ForeignKeyAction.cascade }

/-- C7: an inline relation field with `fields: [a], references: [b]` on model
M referencing model N produces a foreign key on M(a) referencing N(b), whose
on-delete action is SetNull when all referencing fields are optional and
Cascade when at least one referencing field is required. -/
theorem inline_relation_fk_on_delete (fields : List ReferencingField)
    (target : String) (refs : List String) (a : String) (aopt : Bool) :
    (inlineRelationForeignKey fields target refs).columns =
      fields.map ReferencingField.column ∧
    (inlineRelationForeignKey fields target refs).referenced_table = target ∧
    (inlineRelationForeignKey fields target refs).referenced_columns = refs ∧
    ((∀ f ∈ fields, f.is_optional = true) →
      (inlineRelationForeignKey fields target refs).on_delete_action =
        ForeignKeyAction.setNull) ∧
    ((∃ f ∈ fields, f.is_optional = false) →
      (inlineRelationForeignKey fields target refs).on_delete_action =
        ForeignKeyAction.cascade) ∧
    (inlineRelationForeignKey [⟨a, aopt⟩] target refs).columns = [a] := by
  refine ⟨rfl, rfl, rfl, ?_, ?_, rfl⟩
  · intro hall
    have : fields.all ReferencingField.is_optional = true := by
      rw [List.all_eq_true]
      intro f hf
      exact hall f hf
    simp [inlineRelationForeignKey, this]
  · rintro ⟨f, hf, hopt⟩
    have : fields.all ReferencingField.is_optional = false := by
      rw [List.all_eq_false]
      exact ⟨f, hf, by simp [hopt]⟩
    simp [inlineRelationForeignKey, this]

/-- Witness for C7 at a concrete input: a required field `bid` referencing
`B(id)` cascades, an optional field `cid` referencing `C(id)` sets null. -/
theorem inline_relation_fk_witness :
    ((inlineRelationForeignKey [⟨"bid", false⟩] "B" ["id"]).columns = [⟨"bid", false⟩].map ReferencingField.column ∧
    (inlineRelationForeignKey [⟨"bid", false⟩] "B" ["id"]).referenced_table = "B" ∧
    (inlineRelationForeignKey [⟨"bid", false⟩] "B" ["id"]).referenced_columns = ["id"] ∧
    ((∀ f ∈ [(⟨"bid", false⟩ : ReferencingField)], f.is_optional = true) →
      (inlineRelationForeignKey [⟨"bid", false⟩] "B" ["id"]).on_delete_action =
        ForeignKeyAction.setNull) ∧
    ((∃ f ∈ [(⟨"bid", false⟩ : ReferencingField)], f.is_optional = false) →
      (inlineRelationForeignKey [⟨"bid", false⟩] "B" ["id"]).on_delete_action =
        ForeignKeyAction.cascade) ∧
    (inlineRelationForeignKey [⟨"bid", false⟩] "B" ["id"]).columns = ["bid"]) ∧
    (inlineRelationForeignKey [⟨"bid", false⟩] "B" ["id"]).on_delete_action =
      ForeignKeyAction.cascade ∧
    (inlineRelationForeignKey [⟨"cid", true⟩] "C" ["id"]).on_delete_action =
      ForeignKeyAction.setNull :=
  ⟨inline_relation_fk_on_delete [⟨"bid", false⟩] "B" ["id"] "bid" false,
    (inline_relation_fk_on_delete [⟨"bid", false⟩] "B" ["id"] "bid" false).2.2.2.2.1
      ⟨⟨"bid", false⟩, by decide, rfl⟩,
    (inline_relation_fk_on_delete [⟨"cid", true⟩] "C" ["id"] "cid" true).2.2.2.1
      (by decide)⟩

/-! ## Datamodel (DML) and datamodel calculator (claims C4 and C8) -/

/-- Modelled from the spec: §3.2 the base scalar types of the datamodel. -/
inductive ScalarType where
  | int
  | float
  | boolean
  | string
  | dateTime
  | json
deriving DecidableEq, Repr

/-- Modelled from the spec: §3.2 field arities. -/
inductive FieldArity where
  | required
  | optional
  | list
deriving DecidableEq, Repr

/-- Modelled from the spec: §3.2 field default values: a literal or a named
generator. -/
inductive DMLDefault where
  | single (v : String)
  | autoincrement
  | now
  | cuid
  | uuidGen
deriving DecidableEq, Repr

/-- Modelled from the spec: §3.2 field types (relation fields are not needed
by any claim). -/
inductive FieldType where
  | base (t : ScalarType)
  | enumType (name : String)
  | unsupported (descr : String)
deriving DecidableEq, Repr

/-- Modelled from the spec: §3.2 `Field`. -/
structure Field where
  name : String
  database_name : Option String
  arity : FieldArity
  field_type : FieldType
  default_value : Option DMLDefault
  is_unique : Bool
  is_id : Bool
  is_generated : Bool
  is_updated_at : Bool
  is_commented_out : Bool
  docs : Option String
deriving DecidableEq, Repr

/-- Modelled from the spec: §3.2 `Model` (index definitions are carried over
as-is and not needed by any claim). -/
structure Model where
  name : String
  database_name : Option String
  fields : List Field
  id_fields : List String
  is_embedded : Bool
  is_generated : Bool
  is_commented_out : Bool
  docs : Option String
deriving DecidableEq, Repr

/-- Modelled from the spec: the display string of a column type family,
mirroring the describer's `toString` used for `Unsupported` field types. -/
def familyStr : ColumnTypeFamily → String
  | ColumnTypeFamily.int => "Int"
  | ColumnTypeFamily.float => "Float"
  | ColumnTypeFamily.boolean => "Boolean"
  | ColumnTypeFamily.string => "String"
  | ColumnTypeFamily.dateTime => "DateTime"
  | ColumnTypeFamily.binary => "Binary"
  | ColumnTypeFamily.json => "Json"
  | ColumnTypeFamily.uuid => "Uuid"
  | ColumnTypeFamily.enum n => "Enum(" ++ n ++ ")"
  | ColumnTypeFamily.geometric => "Geometric"
  | ColumnTypeFamily.logSequenceNumber => "LogSequenceNumber"
  | ColumnTypeFamily.textSearch => "TextSearch"
  | ColumnTypeFamily.transactionId => "TransactionId"
  | ColumnTypeFamily.unknown => "Unknown"

/-- Modelled from the spec: §4.2 the scalar type of a supported non-enum
column type family; `Uuid` maps to the `String` scalar. -/
def scalarOfFamily : ColumnTypeFamily → Option ScalarType
  | ColumnTypeFamily.int => some ScalarType.int
  | ColumnTypeFamily.float => some ScalarType.float
  | ColumnTypeFamily.boolean => some ScalarType.boolean
  | ColumnTypeFamily.string => some ScalarType.string
  | ColumnTypeFamily.dateTime => some ScalarType.dateTime
  | ColumnTypeFamily.json => some ScalarType.json
  | ColumnTypeFamily.uuid => some ScalarType.string
  | _ => none

/-- Documentation attached to a field whose column type family is not
supported. -/
def unsupportedDocs : String := "This type is currently not supported."

/-- Documentation attached to a model whose table has no usable identifier. -/
def headlessTableDocs : String :=
  "The underlying table does not contain a unique identifier and can therefore currently not be handled."

/-- Modelled from the spec: §4.2 the field type of a column, together with
whether the field is commented out: enum families become enum fields, families
with a scalar mapping become base fields, and every other family becomes
`Unsupported(family.toString())` commented out. -/
def calculateFieldType : ColumnTypeFamily → FieldType × Bool
  | ColumnTypeFamily.enum n => (FieldType.enumType n, false)
  | fam =>
      match scalarOfFamily fam with
      | some sc => (FieldType.base sc, false)
      | none => (FieldType.unsupported (familyStr fam), true)

/-- Modelled from the spec: §4.2 arity mapping. -/
def calculateArity : ColumnArity → FieldArity
  | ColumnArity.required => FieldArity.required
  | ColumnArity.nullable => FieldArity.optional
  | ColumnArity.list => FieldArity.list

/-- Modelled from the spec: §4.2 the default of a non-id column: an
auto-incrementing Int column gets `autoincrement()`, a literal default becomes
`Single`, a `NOW` default becomes `now()`. -/
def columnDefault (col : Column) : Option DMLDefault :=
  if col.auto_increment = true ∧ col.tpe.family = ColumnTypeFamily.int then
    some DMLDefault.autoincrement
  else
    match col.default with
    | some (DefaultValue.value v) => some (DMLDefault.single v)
    | some DefaultValue.now => some DMLDefault.now
    | _ => none

/-- Whether a table's primary key designates this column as the single `@id`
field. -/
def isSingleIdColumn (pk : Option PrimaryKey) (col : Column) : Bool :=
  match pk with
  | some k => decide (k.columns = [col.name])
  | none => false

/-- Whether the table's primary key has a backing sequence. -/
def pkHasSequence (pk : Option PrimaryKey) : Bool :=
  match pk with
  | some k => k.sequence.isSome
  | none => false

/-- Modelled from the spec: §4.2 the field produced for one column of a table
(the `calculate_datamodel` module is not part of this tree). A single-column
primary key makes the field `@id`, with `@default(autoincrement())` iff the
column auto-increments or the primary key has a backing sequence; otherwise
the default is derived from the column default. -/
def calculateField (pk : Option PrimaryKey) (col : Column) : Field :=
  let ftc := calculateFieldType col.tpe.family
  let isId := isSingleIdColumn pk col
  { name := col.name
    database_name := none
    arity := calculateArity col.tpe.arity
    field_type := ftc.1
    default_value :=
      if isId && (col.auto_increment || pkHasSequence pk) then some DMLDefault.autoincrement
      else columnDefault col
    is_unique := false
    is_id := isId
    is_generated := false
    is_updated_at := false
    is_commented_out := ftc.2
    docs := if ftc.2 then some unsupportedDocs else none }

/-- Whether a table lacks any primary key (single-column or composite). -/
def headlessTable (t : Table) : Bool :=
  match t.primary_key with
  | none => true
  | some k => k.columns.isEmpty

/-- Modelled from the spec: §4.2 the model produced for one table. A table
with no single-column and no composite primary key is emitted commented out
with an explanatory documentation string; a multi-column primary key becomes
`@@id` via `id_fields`. -/
def calculateModel (t : Table) : Model :=
  { name := t.name
    database_name := none
    fields := t.columns.map (calculateField t.primary_key)
    id_fields :=
      match t.primary_key with
      | some k => if 2 ≤ k.columns.length then k.columns else []
      | none => []
    is_embedded := false
    is_generated := false
    is_commented_out := headlessTable t
    docs := if headlessTable t then some headlessTableDocs else none }

/-- C4: a table with no single-column and no composite primary key is emitted
as a commented-out model with the exact documentation string
"The underlying table does not contain a unique identifier and can therefore
currently not be handled."; a column whose type family is outside
\x7bInt, Float, Boolean, String, DateTime, Json, Uuid, Enum\x7d becomes a field
with type `Unsupported(family.toString())`, commented out, documented exactly
"This type is currently not supported."; and `Uuid` maps to the `String`
scalar. -/
theorem headless_tables_and_unsupported_columns_are_commented_out
    (t : Table) (pk : Option PrimaryKey) (col : Column)
    (ht : headlessTable t = true)
    (hf : scalarOfFamily col.tpe.family = none)
    (he : ∀ n, col.tpe.family ≠ ColumnTypeFamily.enum n) :
    ((calculateModel t).is_commented_out = true ∧
      (calculateModel t).docs =
        some "The underlying table does not contain a unique identifier and can therefore currently not be handled.") ∧
    ((calculateField pk col).field_type = FieldType.unsupported (familyStr col.tpe.family) ∧
      (calculateField pk col).is_commented_out = true ∧
      (calculateField pk col).docs = some "This type is currently not supported.") ∧
    (∀ (pk2 : Option PrimaryKey) (col2 : Column),
      col2.tpe.family = ColumnTypeFamily.uuid →
      (calculateField pk2 col2).field_type = FieldType.base ScalarType.string) := by
  have hft : calculateFieldType col.tpe.family =
      (FieldType.unsupported (familyStr col.tpe.family), true) := by
    cases hfam : col.tpe.family with
    | «enum» n => exact absurd hfam (he n)
    | _ =>
      rw [hfam] at hf
      first
        | rfl
        | (simp [scalarOfFamily] at hf)
  refine ⟨⟨?_, ?_⟩, ⟨?_, ?_, ?_⟩, ?_⟩
  · simp [calculateModel, ht]
  · simp [calculateModel, ht, headlessTableDocs]
  · simp [calculateField, hft]
  · simp [calculateField, hft]
  · simp [calculateField, hft, unsupportedDocs]
  · intro pk2 col2 h2
    simp [calculateField, calculateFieldType, h2, scalarOfFamily]

/-- Witness for C4 at a concrete input: a table with no primary key and a
nullable Binary column, plus a Uuid column. -/
theorem headless_tables_witness :
    (headlessTable ⟨"Table1",
        [⟨"Binary", ⟨ColumnTypeFamily.binary, ColumnArity.nullable⟩, none, false⟩],
        [], none, []⟩ = true ∧
      scalarOfFamily
        (⟨"Binary", ⟨ColumnTypeFamily.binary, ColumnArity.nullable⟩, none,
          false⟩ : Column).tpe.family = none) ∧
    ((calculateModel ⟨"Table1",
        [⟨"Binary", ⟨ColumnTypeFamily.binary, ColumnArity.nullable⟩, none, false⟩],
        [], none, []⟩).is_commented_out = true ∧
      (calculateModel ⟨"Table1",
        [⟨"Binary", ⟨ColumnTypeFamily.binary, ColumnArity.nullable⟩, none, false⟩],
        [], none, []⟩).docs =
        some "The underlying table does not contain a unique identifier and can therefore currently not be handled.") ∧
    ((calculateField none
        ⟨"Binary", ⟨ColumnTypeFamily.binary, ColumnArity.nullable⟩, none, false⟩).field_type =
      FieldType.unsupported (familyStr
        (⟨"Binary", ⟨ColumnTypeFamily.binary, ColumnArity.nullable⟩, none,
          false⟩ : Column).tpe.family) ∧
      (calculateField none
        ⟨"Binary", ⟨ColumnTypeFamily.binary, ColumnArity.nullable⟩, none, false⟩).is_commented_out = true ∧
      (calculateField none
        ⟨"Binary", ⟨ColumnTypeFamily.binary, ColumnArity.nullable⟩, none, false⟩).docs =
        some "This type is currently not supported.") ∧
    (∀ (pk2 : Option PrimaryKey) (col2 : Column),
      col2.tpe.family = ColumnTypeFamily.uuid →
      (calculateField pk2 col2).field_type = FieldType.base ScalarType.string) :=
  ⟨⟨rfl, rfl⟩,
    headless_tables_and_unsupported_columns_are_commented_out
      ⟨"Table1",
        [⟨"Binary", ⟨ColumnTypeFamily.binary, ColumnArity.nullable⟩, none, false⟩],
        [], none, []⟩
      none
      ⟨"Binary", ⟨ColumnTypeFamily.binary, ColumnArity.nullable⟩, none, false⟩
      rfl rfl (fun n h => by cases h)⟩

lemma columnDefault_autoincrement (col : Column)
    (h : columnDefault col = some DMLDefault.autoincrement) :
    col.auto_increment = true := by
  by_cases hc : col.auto_increment = true ∧ col.tpe.family = ColumnTypeFamily.int
  · exact hc.1
  · rw [columnDefault, if_neg hc] at h
    cases hd : col.default with
    | none => rw [hd] at h; simp at h
    | some d => cases d <;> (rw [hd] at h; simp at h)

/-- C8 counterexample: a single-column primary key on an Int column that does
not auto-increment, whose primary key has no backing sequence, but which
carries the literal column default 5. The claim says the field then has no
default value; the calculator keeps the literal default `Single(5)`. -/
theorem id_field_literal_default_counterexample :
    (calculateField (some ⟨["primary"], none⟩)
        ⟨"primary", ⟨ColumnTypeFamily.int, ColumnArity.required⟩,
          some (DefaultValue.value "5"), false⟩).is_id = true ∧
    (calculateField (some ⟨["primary"], none⟩)
        ⟨"primary", ⟨ColumnTypeFamily.int, ColumnArity.required⟩,
          some (DefaultValue.value "5"), false⟩).default_value =
      some (DMLDefault.single "5") ∧
    ¬ (calculateField (some ⟨["primary"], none⟩)
        ⟨"primary", ⟨ColumnTypeFamily.int, ColumnArity.required⟩,
          some (DefaultValue.value "5"), false⟩).default_value = none := by
  refine ⟨rfl, rfl, ?_⟩
  intro h
  simp [calculateField, isSingleIdColumn, pkHasSequence, columnDefault] at h

/-- C8 (amended): a single-column primary key marks the corresponding field
with `@id` (`is_id = true`), and the field's default value is
`autoincrement()` iff the column has `auto_increment` set or the primary key
has a backing sequence; when neither holds the default is derived from the
column's own default, in particular the field has no default value when the
column also carries no default. -/
theorem single_column_pk_is_id_with_autoincrement (col : Column) (seq : Option Sequence) :
    (calculateField (some ⟨[col.name], seq⟩) col).is_id = true ∧
    ((calculateField (some ⟨[col.name], seq⟩) col).default_value =
        some DMLDefault.autoincrement ↔
      (col.auto_increment = true ∨ seq ≠ none)) ∧
    (col.auto_increment = false → seq = none → col.default = none →
      (calculateField (some ⟨[col.name], seq⟩) col).default_value = none) := by
  have hid : isSingleIdColumn (some ⟨[col.name], seq⟩) col = true := by
    simp [isSingleIdColumn]
  have hseq : pkHasSequence (some ⟨[col.name], seq⟩) = seq.isSome := by
    simp [pkHasSequence]
  refine ⟨by simp [calculateField, hid], ⟨?_, ?_⟩, ?_⟩
  · intro h
    by_cases hc : (col.auto_increment || seq.isSome) = true
    · rcases Bool.or_eq_true_iff.mp hc with h1 | h2
      · exact Or.inl h1
      · exact Or.inr (Option.ne_none_iff_isSome.mpr h2)
    · have hfalse : (col.auto_increment || seq.isSome) = false := by
        simpa using hc
      have hcd : columnDefault col = some DMLDefault.autoincrement := by
        simpa [calculateField, hid, hseq, hfalse] using h
      have := columnDefault_autoincrement col hcd
      rw [this] at hfalse
      simp at hfalse
  · intro hor
    have hc : (col.auto_increment || seq.isSome) = true := by
      rcases hor with h1 | h2
      · simp [h1]
      · simp [Option.isSome_iff_ne_none.mpr h2]
    simp [calculateField, hid, hseq, hc]
  · intro ha hs hd
    subst hs
    simp [calculateField, isSingleIdColumn, pkHasSequence, ha, columnDefault, hd]

/-- Witness for the amended C8 at concrete inputs: a plain Int primary key
without auto-increment and without sequence has no default, and an
auto-incrementing one gets `autoincrement()`. -/
theorem single_column_pk_witness :
    (calculateField (some ⟨["primary"], none⟩)
        ⟨"primary", ⟨ColumnTypeFamily.int, ColumnArity.required⟩, none, false⟩).is_id = true ∧
    (calculateField (some ⟨["primary"], none⟩)
        ⟨"primary", ⟨ColumnTypeFamily.int, ColumnArity.required⟩, none, false⟩).default_value =
      none ∧
    (calculateField (some ⟨["primary"], none⟩)
        ⟨"primary", ⟨ColumnTypeFamily.int, ColumnArity.required⟩, none, true⟩).default_value =
      some DMLDefault.autoincrement :=
  ⟨(single_column_pk_is_id_with_autoincrement
      ⟨"primary", ⟨ColumnTypeFamily.int, ColumnArity.required⟩, none, false⟩ none).1,
    (single_column_pk_is_id_with_autoincrement
      ⟨"primary", ⟨ColumnTypeFamily.int, ColumnArity.required⟩, none, false⟩ none).2.2
      rfl rfl rfl,
    (single_column_pk_is_id_with_autoincrement
      ⟨"primary", ⟨ColumnTypeFamily.int, ColumnArity.required⟩, none, true⟩ none).2.1.mpr
      (Or.inl rfl)⟩

/-! ## Cached query connector (claims C9 and C10)

Embedded from `query-engine/connectors/cached-connector/src`. -/

/-- A Prisma value as carried by records and filters; the connector only
compares values for equality, so a representative constructor set suffices. -/
inductive PrismaValue where
  | stringValue (s : String)
  | intValue (i : Int)
  | null
deriving DecidableEq, Repr

/-- A SQL-level error as raised by the underlying connector. The cached
connector never inspects it (see `catch` in `database/mod.rs` and
`database/transaction.rs`), so only a kind and message are carried. -/
structure SqlError where
  kind : String
  message : String
deriving DecidableEq, Repr

/-- Connector error kinds, from `connector_interface::error::ErrorKind`; only
the variants the cached connector can produce or discard are carried. -/
inductive ErrorKind where
  | columnDoesNotExist
  | connectionError (msg : String)
  | queryError (msg : String)
  | recordDoesNotExist
deriving DecidableEq, Repr

/-- A connector-level error, from `connector_interface::error`. -/
structure ConnectorError where
  kind : ErrorKind
deriving DecidableEq, Repr

/-- From `database/transaction.rs` (`CachedConnectorTransaction::catch`) and
`database/mod.rs` (`catch`): a failed underlying future is mapped to
`ConnectorError::from_kind(ErrorKind::ColumnDoesNotExist)`, discarding the
`SqlError`; a successful one passes through. -/
def catchSqlError {O : Type} : Except SqlError O → Except ConnectorError O
  | Except.ok o => Except.ok o
  | Except.error _ => Except.error { kind := ErrorKind.columnDoesNotExist }

/-- From `prisma_models`: a record as returned by `get_single_record`. -/
structure SingleRecord where
  record : List PrismaValue
  field_names : List String
deriving DecidableEq, Repr

/-- From `prisma_models`: many records. -/
structure ManyRecords where
  records : List (List PrismaValue)
  field_names : List String
deriving DecidableEq, Repr

/-- From `prisma_models`: a record projection (field names with values). -/
def RecordProjection : Type := List (String × PrismaValue)

namespace CachedConnectorTransaction

/-- The `commit` method of the `Transaction` impl in
`database/transaction.rs`: the underlying commit result run through `catch`. -/
def commit (underlying : Except SqlError Unit) : Except ConnectorError Unit :=
  catchSqlError underlying

/-- The `rollback` method: the underlying rollback result run through `catch`. -/
def rollback (underlying : Except SqlError Unit) : Except ConnectorError Unit :=
  catchSqlError underlying

/-- The `get_single_record` method: the cached read result run through `catch`. -/
def get_single_record (underlying : Except SqlError (Option SingleRecord)) :
    Except ConnectorError (Option SingleRecord) :=
  catchSqlError underlying

/-- The `get_many_records` method run through `catch`. -/
def get_many_records (underlying : Except SqlError ManyRecords) :
    Except ConnectorError ManyRecords :=
  catchSqlError underlying

/-- The `get_related_m2m_record_ids` method run through `catch`. -/
def get_related_m2m_record_ids
    (underlying : Except SqlError (List (RecordProjection × RecordProjection))) :
    Except ConnectorError (List (RecordProjection × RecordProjection)) :=
  catchSqlError underlying

/-- The `count_by_model` method run through `catch`. -/
def count_by_model (underlying : Except SqlError Nat) : Except ConnectorError Nat :=
  catchSqlError underlying

/-- The `create_record` method run through `catch`. -/
def create_record (underlying : Except SqlError RecordProjection) :
    Except ConnectorError RecordProjection :=
  catchSqlError underlying

/-- The `update_records` method run through `catch`. -/
def update_records (underlying : Except SqlError (List RecordProjection)) :
    Except ConnectorError (List RecordProjection) :=
  catchSqlError underlying

/-- The `delete_records` method run through `catch`. -/
def delete_records (underlying : Except SqlError Nat) : Except ConnectorError Nat :=
  catchSqlError underlying

/-- The `connect` method run through `catch`. -/
def connect (underlying : Except SqlError Unit) : Except ConnectorError Unit :=
  catchSqlError underlying

/-- The `disconnect` method run through `catch`. -/
def disconnect (underlying : Except SqlError Unit) : Except ConnectorError Unit :=
  catchSqlError underlying

/-- The `execute_raw` method run through `catch` (the JSON result is carried
as a string). -/
def execute_raw (underlying : Except SqlError String) : Except ConnectorError String :=
  catchSqlError underlying

end CachedConnectorTransaction

/-- C9: every operation of the cached connector transaction (all reads, all
writes, commit and rollback) maps any underlying `SqlError` to a
`ConnectorError` of kind `ColumnDoesNotExist`; the original error kind and
message are discarded (two distinct errors yield the same result), and
successful results pass through unchanged. -/
theorem cached_connector_discards_errors :
    (∀ (e : SqlError), CachedConnectorTransaction.commit (Except.error e) =
      Except.error { kind := ErrorKind.columnDoesNotExist }) ∧
    (∀ (e : SqlError), CachedConnectorTransaction.rollback (Except.error e) =
      Except.error { kind := ErrorKind.columnDoesNotExist }) ∧
    (∀ (e : SqlError), CachedConnectorTransaction.get_single_record (Except.error e) =
      Except.error { kind := ErrorKind.columnDoesNotExist }) ∧
    (∀ (e : SqlError), CachedConnectorTransaction.get_many_records (Except.error e) =
      Except.error { kind := ErrorKind.columnDoesNotExist }) ∧
    (∀ (e : SqlError), CachedConnectorTransaction.get_related_m2m_record_ids (Except.error e) =
      Except.error { kind := ErrorKind.columnDoesNotExist }) ∧
    (∀ (e : SqlError), CachedConnectorTransaction.count_by_model (Except.error e) =
      Except.error { kind := ErrorKind.columnDoesNotExist }) ∧
    (∀ (e : SqlError), CachedConnectorTransaction.create_record (Except.error e) =
      Except.error { kind := ErrorKind.columnDoesNotExist }) ∧
    (∀ (e : SqlError), CachedConnectorTransaction.update_records (Except.error e) =
      Except.error { kind := ErrorKind.columnDoesNotExist }) ∧
    (∀ (e : SqlError), CachedConnectorTransaction.delete_records (Except.error e) =
      Except.error { kind := ErrorKind.columnDoesNotExist }) ∧
    (∀ (e : SqlError), CachedConnectorTransaction.connect (Except.error e) =
      Except.error { kind := ErrorKind.columnDoesNotExist }) ∧
    (∀ (e : SqlError), CachedConnectorTransaction.disconnect (Except.error e) =
      Except.error { kind := ErrorKind.columnDoesNotExist }) ∧
    (∀ (e : SqlError), CachedConnectorTransaction.execute_raw (Except.error e) =
      Except.error { kind := ErrorKind.columnDoesNotExist }) ∧
    (∀ {O : Type} (e1 e2 : SqlError),
      catchSqlError (O := O) (Except.error e1) = catchSqlError (O := O) (Except.error e2)) ∧
    (∀ {O : Type} (o : O), catchSqlError (Except.ok o) = Except.ok o) :=
  ⟨fun _ => rfl, fun _ => rfl, fun _ => rfl, fun _ => rfl, fun _ => rfl, fun _ => rfl,
    fun _ => rfl, fun _ => rfl, fun _ => rfl, fun _ => rfl, fun _ => rfl, fun _ => rfl,
    fun _ _ => rfl, fun _ => rfl⟩

/-! ## The model cache and the cached read path (claim C10) -/

/-- From `database/cached.rs`: the `ModelCache` is a set of (model, id) pairs;
the model is identified by name. Its only operations are `get` and `insert`. -/
abbrev ModelCache : Type := List (String × PrismaValue)

/-- From `database/cached.rs` (`ModelCache::get`): membership test. -/
def ModelCache.get (c : ModelCache) (model : String) (id : PrismaValue) : Bool :=
  decide ((model, id) ∈ c)

/-- From `database/cached.rs` (`ModelCache::insert`): set insertion. -/
def ModelCache.insert (c : ModelCache) (model : String) (id : PrismaValue) : ModelCache :=
  if (model, id) ∈ c then c else (model, id) :: c

/-- From `prisma_models`: the part of a model the cached read path uses — its
name and the name of its first id field (`model.fields().id().unwrap()` then
`first().unwrap()` in `operations/read.rs`). -/
structure PrismaModel where
  name : String
  id_field : String
deriving DecidableEq, Repr

/-- From `connector_interface::filter`: the filter shapes the cached read path
distinguishes — a single-scalar equality condition (the pattern
`Filter::Scalar(ScalarFilter { projection: Single, condition: Equals })`
matched in `operations/read.rs`), and everything else. -/
inductive Filter where
  | scalarEquals (field : String) (value : PrismaValue)
  | other (descr : String)
deriving DecidableEq, Repr

/-- Outcome of one cached `get_single_record` call: the returned record, the
cache afterwards, and whether the underlying database was queried. -/
structure ReadOutcome where
  result : Option SingleRecord
  cache : ModelCache
  queried_database : Bool
deriving DecidableEq, Repr

/-- From `operations/read.rs`: the position of a field name in the record's
field names (`field_names.iter().position(...)`). -/
def positionOf (names : List String) (target : String) : Option Nat :=
  match names with
  | [] => none
  | n :: rest => if n = target then some 0 else (positionOf rest target).map (· + 1)

/-- From `operations/read.rs`: the cache is consulted exactly when the filter
is an equality on the model's id field and the selected fields are exactly the
id field; the hit value is the id when cached. -/
def cacheHitValue (cache : ModelCache) (model : PrismaModel) (filter : Filter)
    (selected : List String) : Option PrismaValue :=
  match filter with
  | Filter.scalarEquals f v =>
      if f = model.id_field ∧ selected.length = 1 ∧ model.id_field ∈ selected then
        if ModelCache.get cache model.name v then some v else none
      else none
  | Filter.other _ => none

/-- From `operations/read.rs`: after a successful underlying read, the value
at the id field's position is inserted into the cache. -/
def cacheAfterRead (cache : ModelCache) (model : PrismaModel)
    (r : Option SingleRecord) : ModelCache :=
  match r with
  | some sr =>
      match positionOf sr.field_names model.id_field with
      | some pos => ModelCache.insert cache model.name (sr.record.getD pos PrismaValue.null)
      | none => cache
  | none => cache

namespace CachedOperations

/-- From `operations/read.rs` (`get_single_record`): on a cache hit the record
is synthesized from the cached id without querying the database; otherwise the
underlying connector `db` is queried and the cache is filled from the result. -/
def get_single_record (db : PrismaModel → Filter → List String → Option SingleRecord)
    (cache : ModelCache) (model : PrismaModel) (filter : Filter)
    (selected : List String) : ReadOutcome :=
  match cacheHitValue cache model filter selected with
  | some v =>
      { result := some { record := [v], field_names := [model.id_field] }
        cache := cache
        queried_database := false }
  | none =>
      { result := db model filter selected
        cache := cacheAfterRead cache model (db model filter selected)
        queried_database := true }

end CachedOperations

/-- The underlying database rows visible to the write operations: (model,
record id) pairs. -/
structure Database where
  rows : List (String × PrismaValue)
deriving DecidableEq, Repr

/-- The cached connector's state: the underlying database and the model
cache. -/
structure ConnectorState where
  db : Database
  cache : ModelCache
deriving DecidableEq, Repr

/-- The write operations of `operations/write.rs`. -/
inductive WriteOp where
  | create_record (model : String) (id : PrismaValue)
  | update_records (model : String) (ids : List PrismaValue)
  | delete_records (model : String) (ids : List PrismaValue)
  | connect (model : String) (parent : PrismaValue) (children : List PrismaValue)
  | disconnect (model : String) (parent : PrismaValue) (children : List PrismaValue)
deriving DecidableEq, Repr

/-- From `operations/write.rs`: every write operation delegates to the
underlying SQL connector and never touches the `ModelCache` (the cache
invalidation is only sketched in comments there). -/
def applyWriteOp (s : ConnectorState) : WriteOp → ConnectorState
  | WriteOp.create_record m id => { s with db := ⟨(m, id) :: s.db.rows⟩ }
  | WriteOp.update_records _ _ => s
  | WriteOp.delete_records m ids =>
      { s with db := ⟨s.db.rows.filter fun r => !(decide (r.1 = m) && ids.contains r.2)⟩ }
  | WriteOp.connect _ _ _ => s
  | WriteOp.disconnect _ _ _ => s

lemma ModelCache.mem_insert (c : ModelCache) (m : String) (v : PrismaValue)
    (e : String × PrismaValue) (h : e ∈ c) : e ∈ ModelCache.insert c m v := by
  unfold ModelCache.insert
  by_cases hc : (m, v) ∈ c
  · simp only [if_pos hc]
    exact h
  · simp only [if_neg hc, List.mem_cons]
    exact Or.inr h

lemma ModelCache.mem_insert_self (c : ModelCache) (m : String) (v : PrismaValue) :
    (m, v) ∈ ModelCache.insert c m v := by
  unfold ModelCache.insert
  by_cases hc : (m, v) ∈ c
  · simp only [if_pos hc]
    exact hc
  · simp [hc]

lemma mem_cacheAfterRead (cache : ModelCache) (model : PrismaModel)
    (r : Option SingleRecord) (e : String × PrismaValue) (h : e ∈ cache) :
    e ∈ cacheAfterRead cache model r := by
  cases r with
  | none => simpa [cacheAfterRead] using h
  | some sr =>
    cases hp : positionOf sr.field_names model.id_field with
    | none => simpa [cacheAfterRead, hp] using h
    | some pos =>
      simp only [cacheAfterRead, hp]
      exact ModelCache.mem_insert _ _ _ _ h

/-- C10: the model cache only ever grows — no write operation (in particular
not `delete_records`, `update_records` or `disconnect`) touches it, and
`get_single_record` only ever inserts. Consequently, once an id has been
cached by a successful `get_single_record`, a later `get_single_record` with
an id-equality filter selecting only the id field returns that id from the
cache without querying the database, even after the record has been deleted. -/
theorem model_cache_only_grows
    (s : ConnectorState) (op : WriteOp)
    (db : PrismaModel → Filter → List String → Option SingleRecord)
    (cache : ModelCache) (model : PrismaModel) (filter : Filter)
    (selected : List String) (entry : String × PrismaValue) (w : PrismaValue)
    (hmem : entry ∈ cache)
    (m2 : PrismaModel) (v : PrismaValue) (hv : (m2.name, v) ∈ cache) :
    (applyWriteOp s op).cache = s.cache ∧
    entry ∈ (CachedOperations.get_single_record db cache model filter selected).cache ∧
    CachedOperations.get_single_record db cache m2 (Filter.scalarEquals m2.id_field v)
        [m2.id_field] =
      { result := some { record := [v], field_names := [m2.id_field] }
        cache := cache
        queried_database := false } ∧
    (cacheHitValue cache model filter selected = none →
      db model filter selected = some { record := [w], field_names := [model.id_field] } →
      (model.name, w) ∈
        (CachedOperations.get_single_record db cache model filter selected).cache) := by
  refine ⟨?_, ?_, ?_, ?_⟩
  · cases op <;> rfl
  · unfold CachedOperations.get_single_record
    cases cacheHitValue cache model filter selected with
    | some v0 => exact hmem
    | none => exact mem_cacheAfterRead _ _ _ _ hmem
  · have hhit : cacheHitValue cache m2 (Filter.scalarEquals m2.id_field v) [m2.id_field] =
        some v := by
      simp [cacheHitValue, ModelCache.get, hv]
    unfold CachedOperations.get_single_record
    rw [hhit]
  · intro hmiss hdb
    unfold CachedOperations.get_single_record
    rw [hmiss, hdb]
    simp only [cacheAfterRead, positionOf, if_pos rfl, List.getD]
    exact ModelCache.mem_insert_self cache model.name w

/-- Witness for C10 at a concrete input: the id 1 of model `User` is cached;
deleting the record leaves the cache unchanged, and the next id-only read is
served from the cache without a database query. -/
theorem model_cache_only_grows_witness :
    (("User", PrismaValue.intValue 1) ∈
        ([("User", PrismaValue.intValue 1)] : ModelCache)) ∧
    ((applyWriteOp ⟨⟨[("User", PrismaValue.intValue 1)]⟩, [("User", PrismaValue.intValue 1)]⟩
        (WriteOp.delete_records "User" [PrismaValue.intValue 1])).cache =
      (⟨⟨[("User", PrismaValue.intValue 1)]⟩,
        [("User", PrismaValue.intValue 1)]⟩ : ConnectorState).cache ∧
    ("User", PrismaValue.intValue 1) ∈
      (CachedOperations.get_single_record
        (fun _ _ _ => some ⟨[PrismaValue.intValue 2], ["id"]⟩)
        [("User", PrismaValue.intValue 1)] ⟨"User", "id"⟩ (Filter.other "f") ["name"]).cache ∧
    CachedOperations.get_single_record
        (fun _ _ _ => some ⟨[PrismaValue.intValue 2], ["id"]⟩)
        [("User", PrismaValue.intValue 1)] ⟨"User", "id"⟩
        (Filter.scalarEquals "id" (PrismaValue.intValue 1)) ["id"] =
      ⟨some ⟨[PrismaValue.intValue 1], ["id"]⟩, [("User", PrismaValue.intValue 1)], false⟩ ∧
    (cacheHitValue [("User", PrismaValue.intValue 1)] ⟨"User", "id"⟩ (Filter.other "f")
        ["name"] = none →
      (fun (_ : PrismaModel) (_ : Filter) (_ : List String) =>
          some (⟨[PrismaValue.intValue 2], ["id"]⟩ : SingleRecord))
          ⟨"User", "id"⟩ (Filter.other "f") ["name"] =
        some ⟨[PrismaValue.intValue 2], ["id"]⟩ →
      ("User", PrismaValue.intValue 2) ∈
        (CachedOperations.get_single_record
          (fun _ _ _ => some ⟨[PrismaValue.intValue 2], ["id"]⟩)
          [("User", PrismaValue.intValue 1)] ⟨"User", "id"⟩ (Filter.other "f")
          ["name"]).cache)) :=
  ⟨by decide,
    model_cache_only_grows
      ⟨⟨[("User", PrismaValue.intValue 1)]⟩, [("User", PrismaValue.intValue 1)]⟩
      (WriteOp.delete_records "User" [PrismaValue.intValue 1])
      (fun _ _ _ => some ⟨[PrismaValue.intValue 2], ["id"]⟩)
      [("User", PrismaValue.intValue 1)] ⟨"User", "id"⟩ (Filter.other "f") ["name"]
      ("User", PrismaValue.intValue 1) (PrismaValue.intValue 2)
      (by decide)
      ⟨"User", "id"⟩ (PrismaValue.intValue 1) (by decide)⟩

end Prisma
